import Mathlib

set_option linter.all false

/-!
Shallow embedding of `src/librustc/hir/check_attr.rs`: the attribute
placement / conflict checking pass.  Declarations, statements and
expressions are immutable inputs; the diagnostic session is modelled as an
explicit append-only sink (`List Diagnostic`) threaded through every check
function, mirroring the mutation of `self.tcx.sess` in the source.
-/

namespace CheckAttr

/-- Source positions are abstracted to identifiers; diagnostics only compare
spans for equality. -/
abbrev Span := Nat

/-- One sub-item inside an attribute's nested list, e.g. `C` inside
`repr(C, align(8))`.  `name` is `none` for a literal sub-item such as the
`42` in `repr(42)` (where `hint.name()` returns `None` in the source). -/
structure MetaItem where
  name : Option String
  span : Span
deriving DecidableEq

/-- A parsed attribute: name (`check_name`/`name()`), optional literal string
value (`value_str()`), optional nested sub-item list (`meta_item_list()`),
and its span. -/
structure Attribute where
  name : String
  value_str : Option String
  meta_item_list : Option (List MetaItem)
  span : Span
deriving DecidableEq

/-- `hir::VariantData`: whether an enum variant carries associated data.
`Unit` carries none; `Tuple` and `Struct` carry fields. -/
inductive VariantData
  | Unit
  | Tuple
  | Struct
deriving DecidableEq

/-- An enum variant; only its data shape matters to this pass
(`variant.node.data` in the source). -/
structure Variant where
  data : VariantData
deriving DecidableEq

/-- `hir::EnumDef`: the variants of an enum declaration. -/
structure EnumDef where
  variants : List Variant
deriving DecidableEq

/-- `hir::Item_`: the syntactic kind of a declaration.  Kinds not matched by
`Target::from_item` are collapsed into `ItemOther`.  `ItemEnum` keeps its
`EnumDef` because `is_c_like_enum` inspects the variants. -/
inductive ItemNode
  | ItemFn
  | ItemStruct
  | ItemUnion
  | ItemEnum (def_ : EnumDef)
  | ItemConst
  | ItemForeignMod
  | ItemStatic
  | ItemOther
deriving DecidableEq

/-- `hir::Item`: a declaration with its attributes and span. -/
structure Item where
  node : ItemNode
  attrs : List Attribute
  span : Span
deriving DecidableEq

/-- The `Target` enum of the source. -/
inductive Target
  | Fn
  | Struct
  | Union
  | Enum
  | Const
  | ForeignMod
  | Expression
  | Statement
  | Closure
  | Static
  | Other
deriving DecidableEq

/-- `Target::from_item`. -/
def Target.from_item (item : Item) : Target :=
  match item.node with
  | ItemNode.ItemFn => Target.Fn
  | ItemNode.ItemStruct => Target.Struct
  | ItemNode.ItemUnion => Target.Union
  | ItemNode.ItemEnum _ => Target.Enum
  | ItemNode.ItemConst => Target.Const
  | ItemNode.ItemForeignMod => Target.ForeignMod
  | ItemNode.ItemStatic => Target.Static
  | ItemNode.ItemOther => Target.Other

/-- Diagnostic severity: `span_err`/`struct_span_err` vs `span_warn`. -/
inductive Severity
  | Error
  | Warning
deriving DecidableEq

/-- A secondary label attached by `span_label`. -/
structure Label where
  span : Span
  msg : String
deriving DecidableEq

/-- A structured diagnostic record: severity, optional stable code (`E0517`
etc.; `none` for the `span_err` calls without a code), primary spans (a
multi-span for the aggregate repr diagnostics), primary message, and
secondary labels. -/
structure Diagnostic where
  severity : Severity
  code : Option String
  spans : List Span
  message : String
  labels : List Label
deriving DecidableEq

/-- Appending one diagnostic to the session sink (`.emit()`). -/
def emit (sink : List Diagnostic) (d : Diagnostic) : List Diagnostic :=
  sink ++ [d]

/-- `check_inline`: `#[inline]` is only legal on a function or closure. -/
def check_inline (attr : Attribute) (span : Span) (target : Target)
    (sink : List Diagnostic) : List Diagnostic :=
  if target ≠ Target.Fn ∧ target ≠ Target.Closure then
    emit sink ⟨Severity.Error, some "E0518", [attr.span],
      "attribute should be applied to function or closure",
      [⟨span, "not a function or closure"⟩]⟩
  else sink

/-- `check_non_exhaustive`: `#[non_exhaustive]` is only legal on a struct or
enum, and must be bare (no nested list, no literal value).  An invalid
target returns early, skipping the shape check. -/
def check_non_exhaustive (attr : Attribute) (item : Item) (target : Target)
    (sink : List Diagnostic) : List Diagnostic :=
  match target with
  | Target.Struct | Target.Enum =>
    if attr.meta_item_list.isSome ∨ attr.value_str.isSome then
      emit sink ⟨Severity.Error, some "E0702", [attr.span],
        "attribute should be empty", [⟨item.span, "not empty"⟩]⟩
    else sink
  | _ =>
    emit sink ⟨Severity.Error, some "E0701", [attr.span],
      "attribute can only be applied to a struct or enum",
      [⟨item.span, "not a struct or enum"⟩]⟩

/-- `emit_repr_error`. -/
def emit_repr_error (sink : List Diagnostic) (hint_span label_span : Span)
    (hint_message label_message : String) : List Diagnostic :=
  emit sink ⟨Severity.Error, some "E0517", [hint_span], hint_message,
    [⟨label_span, label_message⟩]⟩

/-- The recognized integer-width repr hints. -/
def intReprNames : List String :=
  ["i8", "u8", "i16", "u16", "i32", "u32", "i64", "u64", "isize", "usize"]

/-- The repr hints of an item: sub-items of every attribute named `repr`,
in source order, duplicates preserved (the `hints` vector in `check_repr`). -/
def reprHints (item : Item) : List MetaItem :=
  ((item.attrs.filter (fun a => a.name == "repr")).filterMap
    (fun a => a.meta_item_list)).join

/-- The mutable counters of `check_repr`'s hint loop. -/
structure ReprFlags where
  int_reprs : Nat
  is_c : Bool
  is_simd : Bool
  is_transparent : Bool
deriving DecidableEq

/-- One step of the flag updates in `check_repr`'s hint loop.  In the source
each match arm first updates its flag and only then tests the target;
the flags never influence the per-hint placement test, so the two aspects
of the loop are split into `reprHintFlags` and `reprHintPlacement`. -/
def reprHintFlags (fl : ReprFlags) : Option String → ReprFlags
  | none => fl
  | some name =>
    if name = "C" then { fl with is_c := true }
    else if name = "simd" then { fl with is_simd := true }
    else if name = "transparent" then { fl with is_transparent := true }
    else if intReprNames.contains name then { fl with int_reprs := fl.int_reprs + 1 }
    else fl

/-- The per-hint placement test of `check_repr`'s hint loop: `some (article,
allowed_targets)` exactly when the source emits a placement error for this
hint name on this target, `none` when the arm hits `continue`. -/
def reprHintPlacement (target : Target) (name : String) :
    Option (String × String) :=
  if name = "C" then
    if target ≠ Target.Struct ∧ target ≠ Target.Union ∧ target ≠ Target.Enum
    then some ("a", "struct, enum or union") else none
  else if name = "packed" then
    if target ≠ Target.Struct ∧ target ≠ Target.Union
    then some ("a", "struct or union") else none
  else if name = "simd" then
    if target ≠ Target.Struct then some ("a", "struct") else none
  else if name = "align" then
    if target ≠ Target.Struct ∧ target ≠ Target.Union
    then some ("a", "struct or union") else none
  else if name = "transparent" then
    if target ≠ Target.Struct then some ("a", "struct") else none
  else if intReprNames.contains name then
    if target ≠ Target.Enum then some ("an", "enum") else none
  else none

/-- One iteration of `check_repr`'s hint loop as far as the sink is
concerned: emit the placement error when `reprHintPlacement` fires. -/
def reprPlacementStep (target : Target) (itemSpan : Span)
    (sink : List Diagnostic) (hint : MetaItem) : List Diagnostic :=
  match hint.name with
  | none => sink
  | some name =>
    match reprHintPlacement target name with
    | none => sink
    | some (article, allowed_targets) =>
      emit_repr_error sink hint.span itemSpan
        ("attribute should be applied to " ++ allowed_targets)
        ("not " ++ article ++ " " ++ allowed_targets)

/-- The flag values after `check_repr`'s hint loop. -/
def reprFlagsOf (hints : List MetaItem) : ReprFlags :=
  hints.foldl (fun fl h => reprHintFlags fl h.name) ⟨0, false, false, false⟩

/-- `is_c_like_enum`: an enum whose every variant is a unit variant. -/
def is_c_like_enum (item : Item) : Bool :=
  match item.node with
  | ItemNode.ItemEnum def_ =>
    def_.variants.all (fun variant =>
      match variant.data with
      | VariantData.Unit => true
      | _ => false)
  | _ => false

/-- `check_repr`: per-hint placement errors, then the two aggregate
diagnostics over the whole hint set. -/
def check_repr (item : Item) (target : Target) (sink : List Diagnostic) :
    List Diagnostic :=
  let hints := reprHints item
  let fl := reprFlagsOf hints
  let sink := hints.foldl (reprPlacementStep target item.span) sink
  let hint_spans := hints.map (fun h => h.span)
  let sink :=
    if fl.is_transparent = true ∧ hints.length > 1 then
      emit sink ⟨Severity.Error, some "E0692", hint_spans,
        "transparent struct cannot have other repr hints", []⟩
    else sink
  if fl.int_reprs > 1 ∨ (fl.is_simd = true ∧ fl.is_c = true)
      ∨ (fl.int_reprs = 1 ∧ fl.is_c = true ∧ is_c_like_enum item = true) then
    emit sink ⟨Severity.Warning, some "E0566", hint_spans,
      "conflicting representation hints", []⟩
  else sink

/-- `check_used`: `#[used]` is only legal on a static variable. -/
def check_used (item : Item) (target : Target) (sink : List Diagnostic) :
    List Diagnostic :=
  item.attrs.foldl
    (fun sink attr =>
      if attr.name = "used" ∧ target ≠ Target.Static then
        emit sink ⟨Severity.Error, none, [attr.span],
          "attribute must be applied to a `static` variable", []⟩
      else sink)
    sink

/-- The body of the per-attribute loop of `check_attributes`. -/
def attrStep (item : Item) (target : Target) (sink : List Diagnostic)
    (attr : Attribute) : List Diagnostic :=
  if attr.name = "inline" then check_inline attr item.span target sink
  else if attr.name = "non_exhaustive" then
    check_non_exhaustive attr item target sink
  else if attr.name = "wasm_import_module" then
    let sink :=
      if attr.value_str = none then
        emit sink ⟨Severity.Error, none, [attr.span],
          "must be of the form #[wasm_import_module = \"...\"]", []⟩
      else sink
    if target ≠ Target.ForeignMod then
      emit sink ⟨Severity.Error, none, [attr.span],
        "must only be attached to foreign modules", []⟩
    else sink
  else if attr.name = "wasm_custom_section" then
    if target ≠ Target.Const then
      emit sink ⟨Severity.Error, none, [attr.span], "only allowed on consts", []⟩
    else sink
  else sink

/-- The literal `false` gating the dormant foreign-module warning in the
source (`&& false // FIXME: eventually enable this warning when stable`),
represented as a named configuration flag defaulting to off. -/
def wasm_import_module_required : Bool := false

/-- `check_attributes`: validates every attribute of one declaration.  The
`codegen_fn_attrs` call for functions and constants is an opaque external
collaborator that emits no diagnostics of this pass, so it is modelled as a
no-op on the sink.  `wasmRequired` is the configuration flag standing for
the literal `false` in the dormant foreign-module rule. -/
def check_attributes (item : Item) (target : Target) (arch : String)
    (wasmRequired : Bool) (sink : List Diagnostic) : List Diagnostic :=
  let sink :=
    if target = Target.Fn ∨ target = Target.Const then
      sink
    else
      match item.attrs.find? (fun a => a.name == "target_feature") with
      | some a =>
        emit sink ⟨Severity.Error, none, [a.span],
          "attribute should be applied to a function",
          [⟨item.span, "not a function"⟩]⟩
      | none => sink
  let has_wasm_import_module :=
    item.attrs.any (fun a => a.name == "wasm_import_module")
  let sink := item.attrs.foldl (attrStep item target) sink
  let sink :=
    if target = Target.ForeignMod ∧ has_wasm_import_module = false
        ∧ arch = "wasm32" ∧ wasmRequired = true then
      emit sink ⟨Severity.Warning, none, [item.span],
        "must have a #[wasm_import_module = \"...\"] attribute, this will become a hard error before too long", []⟩
    else sink
  let sink := check_repr item target sink
  check_used item target sink

/-- `hir::Stmt_`: statement kinds; only `StmtDecl` carries attributes this
pass reads (`stmt.node.attrs()`). -/
inductive StmtKind
  | StmtDecl (attrs : List Attribute)
  | StmtExpr
  | StmtSemi
deriving DecidableEq

/-- Whether a statement is a declaration statement. -/
def StmtKind.isDecl : StmtKind → Bool
  | StmtKind.StmtDecl _ => true
  | _ => false

/-- The attributes of a declaration statement (`stmt.node.attrs()`). -/
def StmtKind.attrs : StmtKind → List Attribute
  | StmtKind.StmtDecl attrs => attrs
  | _ => []

/-- A statement node with its span. -/
structure Stmt where
  node : StmtKind
  span : Span
deriving DecidableEq

/-- `check_stmt_attributes`: only declaration statements are checked, and
only `inline` and `repr` are examined, with the reduced `Statement` target. -/
def check_stmt_attributes (stmt : Stmt) (sink : List Diagnostic) :
    List Diagnostic :=
  match stmt.node with
  | StmtKind.StmtDecl attrs =>
    attrs.foldl
      (fun sink attr =>
        let sink :=
          if attr.name = "inline" then
            check_inline attr stmt.span Target.Statement sink
          else sink
        if attr.name = "repr" then
          emit_repr_error sink attr.span stmt.span
            "attribute should not be applied to a statement"
            "not a struct, enum or union"
        else sink)
      sink
  | _ => sink

/-- `hir::Expr_` restricted to what this pass distinguishes: closures
versus everything else. -/
inductive ExprKind
  | ExprClosure
  | ExprOther
deriving DecidableEq

/-- An expression node with its attributes and span. -/
structure Expr where
  node : ExprKind
  attrs : List Attribute
  span : Span
deriving DecidableEq

/-- `check_expr_attributes`: a closure expression gets target `Closure`,
anything else `Expression`; only `inline` and `repr` are examined. -/
def check_expr_attributes (expr : Expr) (sink : List Diagnostic) :
    List Diagnostic :=
  let target :=
    match expr.node with
    | ExprKind.ExprClosure => Target.Closure
    | _ => Target.Expression
  expr.attrs.foldl
    (fun sink attr =>
      let sink :=
        if attr.name = "inline" then
          check_inline attr expr.span target sink
        else sink
      if attr.name = "repr" then
        emit_repr_error sink attr.span expr.span
          "attribute should not be applied to an expression"
          "not defining a struct, enum or union"
      else sink)
    sink

/-- One node yielded by the external traversal: a declaration, a statement,
or an expression. -/
inductive Node
  | item (i : Item)
  | stmt (s : Stmt)
  | expr (e : Expr)
deriving DecidableEq

/-- The program tree, abstracted (per the external-visitor contract) to the
sequence of nodes the depth-first traversal yields, in source order. -/
structure Crate where
  nodes : List Node
deriving DecidableEq

/-- Dispatch of the visitor callbacks: `visit_item` classifies the
declaration with `Target::from_item` before validating it. -/
def checkNode (arch : String) (wasmRequired : Bool) (sink : List Diagnostic) :
    Node → List Diagnostic
  | Node.item i => check_attributes i (Target.from_item i) arch wasmRequired sink
  | Node.stmt s => check_stmt_attributes s sink
  | Node.expr e => check_expr_attributes e sink

/-- `check_crate`: run the pass over the whole tree, accumulating
diagnostics in the sink. -/
def check_crate (arch : String) (wasmRequired : Bool) (krate : Crate)
    (sink : List Diagnostic) : List Diagnostic :=
  krate.nodes.foldl (checkNode arch wasmRequired) sink

/-- Diagnostics appended by `check_inline`. -/
def check_inline_diags (attr : Attribute) (span : Span) (target : Target) :
    List Diagnostic :=
  if target ≠ Target.Fn ∧ target ≠ Target.Closure then
    [⟨Severity.Error, some "E0518", [attr.span],
      "attribute should be applied to function or closure",
      [⟨span, "not a function or closure"⟩]⟩]
  else []

/-- Diagnostics appended by `check_non_exhaustive`. -/
def check_non_exhaustive_diags (attr : Attribute) (item : Item)
    (target : Target) : List Diagnostic :=
  match target with
  | Target.Struct | Target.Enum =>
    if attr.meta_item_list.isSome ∨ attr.value_str.isSome then
      [⟨Severity.Error, some "E0702", [attr.span],
        "attribute should be empty", [⟨item.span, "not empty"⟩]⟩]
    else []
  | _ =>
    [⟨Severity.Error, some "E0701", [attr.span],
      "attribute can only be applied to a struct or enum",
      [⟨item.span, "not a struct or enum"⟩]⟩]

/-- Diagnostics appended by one iteration of `check_repr`'s hint loop. -/
def reprPlacementDiags (target : Target) (itemSpan : Span) (hint : MetaItem) :
    List Diagnostic :=
  match hint.name with
  | none => []
  | some name =>
    match reprHintPlacement target name with
    | none => []
    | some (article, allowed_targets) =>
      [⟨Severity.Error, some "E0517", [hint.span],
        "attribute should be applied to " ++ allowed_targets,
        [⟨itemSpan, "not " ++ article ++ " " ++ allowed_targets⟩]⟩]

/-- Diagnostics appended by `check_repr`. -/
def check_repr_diags (item : Item) (target : Target) : List Diagnostic :=
  ((reprHints item).map (reprPlacementDiags target item.span)).join
    ++ (if (reprFlagsOf (reprHints item)).is_transparent = true
          ∧ (reprHints item).length > 1 then
          [⟨Severity.Error, some "E0692", (reprHints item).map (fun h => h.span),
            "transparent struct cannot have other repr hints", []⟩]
        else [])
    ++ (if (reprFlagsOf (reprHints item)).int_reprs > 1
          ∨ ((reprFlagsOf (reprHints item)).is_simd = true
              ∧ (reprFlagsOf (reprHints item)).is_c = true)
          ∨ ((reprFlagsOf (reprHints item)).int_reprs = 1
              ∧ (reprFlagsOf (reprHints item)).is_c = true
              ∧ is_c_like_enum item = true) then
          [⟨Severity.Warning, some "E0566", (reprHints item).map (fun h => h.span),
            "conflicting representation hints", []⟩]
        else [])

/-- Diagnostics appended by one iteration of `check_attributes`' loop. -/
def attrStep_diags (item : Item) (target : Target) (attr : Attribute) :
    List Diagnostic :=
  if attr.name = "inline" then check_inline_diags attr item.span target
  else if attr.name = "non_exhaustive" then
    check_non_exhaustive_diags attr item target
  else if attr.name = "wasm_import_module" then
    (if attr.value_str = none then
      [⟨Severity.Error, none, [attr.span],
        "must be of the form #[wasm_import_module = \"...\"]", []⟩]
     else [])
    ++ (if target ≠ Target.ForeignMod then
          [⟨Severity.Error, none, [attr.span],
            "must only be attached to foreign modules", []⟩]
        else [])
  else if attr.name = "wasm_custom_section" then
    if target ≠ Target.Const then
      [⟨Severity.Error, none, [attr.span], "only allowed on consts", []⟩]
    else []
  else []

/-- Diagnostics appended by `check_used` for one attribute. -/
def check_used_diags (target : Target) (attr : Attribute) : List Diagnostic :=
  if attr.name = "used" ∧ target ≠ Target.Static then
    [⟨Severity.Error, none, [attr.span],
      "attribute must be applied to a `static` variable", []⟩]
  else []

/-- The `target_feature` misplacement diagnostic of `check_attributes`
(emitted only when the target is neither a function nor a constant). -/
def target_feature_diags (item : Item) (target : Target) : List Diagnostic :=
  if target = Target.Fn ∨ target = Target.Const then []
  else
    match item.attrs.find? (fun a => a.name == "target_feature") with
    | some a =>
      [⟨Severity.Error, none, [a.span],
        "attribute should be applied to a function",
        [⟨item.span, "not a function"⟩]⟩]
    | none => []

/-- The dormant foreign-module warning of `check_attributes`. -/
def wasm_warning_diags (item : Item) (target : Target) (arch : String)
    (wasmRequired : Bool) : List Diagnostic :=
  if target = Target.ForeignMod
      ∧ (item.attrs.any (fun a => a.name == "wasm_import_module")) = false
      ∧ arch = "wasm32" ∧ wasmRequired = true then
    [⟨Severity.Warning, none, [item.span],
      "must have a #[wasm_import_module = \"...\"] attribute, this will become a hard error before too long", []⟩]
  else []

/-- Diagnostics appended by `check_attributes`, in emission order. -/
def check_attributes_diags (item : Item) (target : Target) (arch : String)
    (wasmRequired : Bool) : List Diagnostic :=
  target_feature_diags item target
    ++ (item.attrs.map (attrStep_diags item target)).join
    ++ wasm_warning_diags item target arch wasmRequired
    ++ check_repr_diags item target
    ++ (item.attrs.map (check_used_diags target)).join

/-- Diagnostics appended by `check_stmt_attributes` for one attribute of a
declaration statement. -/
def stmtAttr_diags (span : Span) (attr : Attribute) : List Diagnostic :=
  (if attr.name = "inline" then
    check_inline_diags attr span Target.Statement
   else [])
  ++ (if attr.name = "repr" then
        [⟨Severity.Error, some "E0517", [attr.span],
          "attribute should not be applied to a statement",
          [⟨span, "not a struct, enum or union"⟩]⟩]
      else [])

/-- The reduced target category of an expression node. -/
def exprTarget (expr : Expr) : Target :=
  match expr.node with
  | ExprKind.ExprClosure => Target.Closure
  | _ => Target.Expression

/-- Diagnostics appended by `check_expr_attributes` for one attribute. -/
def exprAttr_diags (span : Span) (target : Target) (attr : Attribute) :
    List Diagnostic :=
  (if attr.name = "inline" then check_inline_diags attr span target else [])
  ++ (if attr.name = "repr" then
        [⟨Severity.Error, some "E0517", [attr.span],
          "attribute should not be applied to an expression",
          [⟨span, "not defining a struct, enum or union"⟩]⟩]
      else [])

/-- Diagnostics appended for one visited node. -/
def checkNode_diags (arch : String) (wasmRequired : Bool) :
    Node → List Diagnostic
  | Node.item i => check_attributes_diags i (Target.from_item i) arch wasmRequired
  | Node.stmt s => (s.node.attrs.map (stmtAttr_diags s.span)).join
  | Node.expr e => (e.attrs.map (exprAttr_diags e.span (exprTarget e))).join

/-- The names of an item's repr hints, unnamed sub-items dropped (these are
the hints the loop's `continue` skips before any flag update). -/
def hintNames (item : Item) : List String :=
  (reprHints item).filterMap MetaItem.name

/-- Spec-side count of integer-width hints: once per occurrence, duplicates
included. -/
def specIntWidthCount (item : Item) : Nat :=
  (hintNames item).countP (fun n => intReprNames.contains n)

/-- Spec-side "plain enumeration" predicate: an enum whose every variant
carries no associated data, independent of explicit discriminants (which
this data model does not even record). -/
def specPlainEnum (item : Item) : Bool :=
  match item.node with
  | ItemNode.ItemEnum def_ => def_.variants.all (fun v => v.data == VariantData.Unit)
  | _ => false

/-- A struct declaration annotated `repr(transparent, u8, u16)`: transparent
is present and the total hint count is 3. -/
def transparentConflictItem : Item :=
  ⟨ItemNode.ItemStruct,
   [⟨"repr", none,
     some [⟨some "transparent", 1⟩, ⟨some "u8", 2⟩, ⟨some "u16", 3⟩], 4⟩],
   0⟩

/-- The claim's placement table, written from the spec's words: for each
recognized repr hint name, the article, the targets string, and the required
target set; `none` for unrecognized names. -/
def specReprRule (name : String) :
    Option (String × String × List Target) :=
  if name = "C" then
    some ("a", "struct, enum or union",
      [Target.Struct, Target.Union, Target.Enum])
  else if name = "packed" then
    some ("a", "struct or union", [Target.Struct, Target.Union])
  else if name = "simd" then
    some ("a", "struct", [Target.Struct])
  else if name = "align" then
    some ("a", "struct or union", [Target.Struct, Target.Union])
  else if name = "transparent" then
    some ("a", "struct", [Target.Struct])
  else if intReprNames.contains name then
    some ("an", "enum", [Target.Enum])
  else none

/-- The claim's per-hint placement behavior, written from the spec's words:
a placement error with the specified message and label iff the target is
outside the hint's required set; no diagnostic for a hint inside the set or
an unrecognized hint. -/
def specPlacementDiags (target : Target) (itemSpan : Span) (hint : MetaItem) :
    List Diagnostic :=
  match hint.name with
  | none => []
  | some name =>
    match specReprRule name with
    | none => []
    | some (article, allowed, req) =>
      if target ∈ req then []
      else
        [⟨Severity.Error, some "E0517", [hint.span],
          "attribute should be applied to " ++ allowed,
          [⟨itemSpan, "not " ++ article ++ " " ++ allowed⟩]⟩]

/-- An enum declaration annotated `repr(transparent, C)`. -/
def transparentCEnumItem : Item :=
  ⟨ItemNode.ItemEnum ⟨[⟨VariantData.Unit⟩]⟩,
   [⟨"repr", none, some [⟨some "transparent", 11⟩, ⟨some "C", 12⟩], 13⟩],
   10⟩

/-- A `wasm_import_module` annotation with no value. -/
def wasmAttrNoValue : Attribute := ⟨"wasm_import_module", none, none, 5⟩

/-- A struct declaration carrying `wasmAttrNoValue`. -/
def wasmWitnessItem : Item := ⟨ItemNode.ItemStruct, [wasmAttrNoValue], 0⟩

/-- The syntactic kind of a declaration, with the enum's payload erased:
what `Target::from_item` matches on. -/
inductive ItemKind
  | KFn
  | KStruct
  | KUnion
  | KEnum
  | KConst
  | KForeignMod
  | KStatic
  | KOther
deriving DecidableEq

/-- The syntactic-kind discriminant of an item node. -/
def ItemNode.kind : ItemNode → ItemKind
  | ItemNode.ItemFn => ItemKind.KFn
  | ItemNode.ItemStruct => ItemKind.KStruct
  | ItemNode.ItemUnion => ItemKind.KUnion
  | ItemNode.ItemEnum _ => ItemKind.KEnum
  | ItemNode.ItemConst => ItemKind.KConst
  | ItemNode.ItemForeignMod => ItemKind.KForeignMod
  | ItemNode.ItemStatic => ItemKind.KStatic
  | ItemNode.ItemOther => ItemKind.KOther

/-- The claim's mapping from syntactic kind to target category. -/
def targetOfKind : ItemKind → Target
  | ItemKind.KFn => Target.Fn
  | ItemKind.KStruct => Target.Struct
  | ItemKind.KUnion => Target.Union
  | ItemKind.KEnum => Target.Enum
  | ItemKind.KConst => Target.Const
  | ItemKind.KForeignMod => Target.ForeignMod
  | ItemKind.KStatic => Target.Static
  | ItemKind.KOther => Target.Other

/-- An enum declaration with one unit variant and an attribute. -/
def enumItemA : Item :=
  ⟨ItemNode.ItemEnum ⟨[⟨VariantData.Unit⟩]⟩, [⟨"inline", none, none, 1⟩], 0⟩

/-- An enum declaration with different variants and no attributes. -/
def enumItemB : Item :=
  ⟨ItemNode.ItemEnum ⟨[⟨VariantData.Tuple⟩, ⟨VariantData.Unit⟩]⟩, [], 2⟩

/-- The `E0518` diagnostic built by `check_inline` for a given annotation
and node span. -/
def inlineErr (a : Attribute) (sp : Span) : Diagnostic :=
  ⟨Severity.Error, some "E0518", [a.span],
   "attribute should be applied to function or closure",
   [⟨sp, "not a function or closure"⟩]⟩

/-- The shape test for the dormant foreign-module warning: a diagnostic of
warning severity carrying no stable code.  The only code-less warning the
pass can construct is the dormant rule's. -/
def isCodelessWarning (d : Diagnostic) : Bool :=
  d.severity == Severity.Warning && d.code == none

/-! ## Theorems

Functional characterizations of the sink-threaded check functions
(`*_eq` lemmas relate each to the list it appends, for any initial
sink), auxiliary list lemmas, and the claim theorems. -/

/-- A sink-threaded loop whose every iteration appends a list determined by
the element alone appends, overall, the concatenation of the per-element
lists. -/
theorem foldl_emits {α : Type} (step : List Diagnostic → α → List Diagnostic)
    (g : α → List Diagnostic) (h : ∀ s a, step s a = s ++ g a) :
    ∀ (l : List α) (s : List Diagnostic),
      l.foldl step s = s ++ (l.map g).join := by
  intro l
  induction l with
  | nil => intro s; simp
  | cons a t ih =>
    intro s
    rw [List.foldl_cons, h s a, ih, List.map_cons]
    simp [List.append_assoc]

/-- A guarded emit appends a guarded singleton. -/
theorem if_emit (c : Prop) [Decidable c] (s : List Diagnostic) (d : Diagnostic) :
    (if c then emit s d else s) = s ++ (if c then [d] else []) := by
  split <;> simp [emit]

theorem check_inline_eq (attr : Attribute) (span : Span) (target : Target)
    (sink : List Diagnostic) :
    check_inline attr span target sink =
      sink ++ check_inline_diags attr span target := by
  unfold check_inline check_inline_diags
  split <;> simp [emit]

theorem check_non_exhaustive_eq (attr : Attribute) (item : Item)
    (target : Target) (sink : List Diagnostic) :
    check_non_exhaustive attr item target sink =
      sink ++ check_non_exhaustive_diags attr item target := by
  unfold check_non_exhaustive check_non_exhaustive_diags
  cases target <;> (try rw [if_emit]) <;> rfl

theorem reprPlacementStep_eq (target : Target) (itemSpan : Span)
    (sink : List Diagnostic) (hint : MetaItem) :
    reprPlacementStep target itemSpan sink hint =
      sink ++ reprPlacementDiags target itemSpan hint := by
  unfold reprPlacementStep reprPlacementDiags
  cases hn : hint.name with
  | none => simp
  | some name =>
    cases hp : reprHintPlacement target name with
    | none => simp [hp]
    | some pr =>
      obtain ⟨article, allowed⟩ := pr
      simp [hp, emit_repr_error, emit]

theorem check_repr_eq (item : Item) (target : Target) (sink : List Diagnostic) :
    check_repr item target sink = sink ++ check_repr_diags item target := by
  unfold check_repr check_repr_diags
  simp only []
  rw [foldl_emits (reprPlacementStep target item.span)
      (reprPlacementDiags target item.span)
      (reprPlacementStep_eq target item.span)]
  rw [if_emit, if_emit]
  simp [List.append_assoc]

theorem attrStep_eq (item : Item) (target : Target) (sink : List Diagnostic)
    (attr : Attribute) :
    attrStep item target sink attr = sink ++ attrStep_diags item target attr := by
  unfold attrStep attrStep_diags
  by_cases h1 : attr.name = "inline"
  · rw [if_pos h1, if_pos h1]
    exact check_inline_eq attr item.span target sink
  · rw [if_neg h1, if_neg h1]
    by_cases h2 : attr.name = "non_exhaustive"
    · rw [if_pos h2, if_pos h2]
      exact check_non_exhaustive_eq attr item target sink
    · rw [if_neg h2, if_neg h2]
      by_cases h3 : attr.name = "wasm_import_module"
      · rw [if_pos h3, if_pos h3, if_emit, if_emit]
        simp [List.append_assoc]
      · rw [if_neg h3, if_neg h3]
        by_cases h4 : attr.name = "wasm_custom_section"
        · rw [if_pos h4, if_pos h4]
          exact if_emit _ sink _
        · rw [if_neg h4, if_neg h4]
          simp

theorem check_used_eq (item : Item) (target : Target) (sink : List Diagnostic) :
    check_used item target sink =
      sink ++ (item.attrs.map (check_used_diags target)).join := by
  unfold check_used
  exact foldl_emits _ (check_used_diags target)
    (fun s a => by unfold check_used_diags; exact if_emit _ s _) item.attrs sink

theorem check_attributes_eq (item : Item) (target : Target) (arch : String)
    (wasmRequired : Bool) (sink : List Diagnostic) :
    check_attributes item target arch wasmRequired sink =
      sink ++ check_attributes_diags item target arch wasmRequired := by
  unfold check_attributes check_attributes_diags
  simp only []
  rw [check_repr_eq, check_used_eq]
  rw [foldl_emits (attrStep item target) (attrStep_diags item target)
    (attrStep_eq item target)]
  have h1 :
      (if target = Target.Fn ∨ target = Target.Const then sink
       else
        match item.attrs.find? (fun a => a.name == "target_feature") with
        | some a =>
          emit sink ⟨Severity.Error, none, [a.span],
            "attribute should be applied to a function",
            [⟨item.span, "not a function"⟩]⟩
        | none => sink)
      = sink ++ target_feature_diags item target := by
    unfold target_feature_diags
    split
    · simp
    · cases hf : item.attrs.find? (fun a => a.name == "target_feature") with
      | some a => simp [hf, emit]
      | none => simp [hf]
  rw [h1]
  have h2 : ∀ (s : List Diagnostic),
      (if target = Target.ForeignMod
          ∧ (item.attrs.any (fun a => a.name == "wasm_import_module")) = false
          ∧ arch = "wasm32" ∧ wasmRequired = true then
        emit s ⟨Severity.Warning, none, [item.span],
          "must have a #[wasm_import_module = \"...\"] attribute, this will become a hard error before too long", []⟩
       else s)
      = s ++ wasm_warning_diags item target arch wasmRequired := by
    intro s
    unfold wasm_warning_diags
    exact if_emit _ s _
  rw [h2]
  simp [List.append_assoc]

theorem check_stmt_attributes_eq (stmt : Stmt) (sink : List Diagnostic) :
    check_stmt_attributes stmt sink =
      sink ++ (stmt.node.attrs.map (stmtAttr_diags stmt.span)).join := by
  obtain ⟨node, span⟩ := stmt
  have step : ∀ (s : List Diagnostic) (a : Attribute),
      (let s2 := if a.name = "inline" then check_inline a span Target.Statement s else s
       if a.name = "repr" then
         emit_repr_error s2 a.span span
           "attribute should not be applied to a statement"
           "not a struct, enum or union"
       else s2)
      = s ++ stmtAttr_diags span a := by
    intro s a
    unfold stmtAttr_diags
    by_cases h1 : a.name = "inline" <;> by_cases h2 : a.name = "repr"
    · rw [h1] at h2; exact absurd h2 (by decide)
    · simp [h1, h2, check_inline_eq]
    · simp [h1, h2, emit_repr_error, emit]
    · simp [h1, h2]
  cases node with
  | StmtDecl attrs =>
    simp only [check_stmt_attributes, StmtKind.attrs]
    exact foldl_emits _ (stmtAttr_diags span) step attrs sink
  | StmtExpr => simp [check_stmt_attributes, StmtKind.attrs]
  | StmtSemi => simp [check_stmt_attributes, StmtKind.attrs]

theorem check_expr_attributes_eq (expr : Expr) (sink : List Diagnostic) :
    check_expr_attributes expr sink =
      sink ++ (expr.attrs.map (exprAttr_diags expr.span (exprTarget expr))).join := by
  obtain ⟨node, attrs, span⟩ := expr
  have step : ∀ (t : Target) (s : List Diagnostic) (a : Attribute),
      (let s2 := if a.name = "inline" then check_inline a span t s else s
       if a.name = "repr" then
         emit_repr_error s2 a.span span
           "attribute should not be applied to an expression"
           "not defining a struct, enum or union"
       else s2)
      = s ++ exprAttr_diags span t a := by
    intro t s a
    unfold exprAttr_diags
    by_cases h1 : a.name = "inline" <;> by_cases h2 : a.name = "repr"
    · rw [h1] at h2; exact absurd h2 (by decide)
    · simp [h1, h2, check_inline_eq]
    · simp [h1, h2, emit_repr_error, emit]
    · simp [h1, h2]
  cases node with
  | ExprClosure =>
    simp only [check_expr_attributes, exprTarget]
    exact foldl_emits _ (exprAttr_diags span Target.Closure)
      (step Target.Closure) attrs sink
  | ExprOther =>
    simp only [check_expr_attributes, exprTarget]
    exact foldl_emits _ (exprAttr_diags span Target.Expression)
      (step Target.Expression) attrs sink

theorem checkNode_eq (arch : String) (wasmRequired : Bool)
    (sink : List Diagnostic) (n : Node) :
    checkNode arch wasmRequired sink n = sink ++ checkNode_diags arch wasmRequired n := by
  cases n with
  | item i => exact check_attributes_eq i (Target.from_item i) arch wasmRequired sink
  | stmt s => exact check_stmt_attributes_eq s sink
  | expr e => exact check_expr_attributes_eq e sink

theorem check_crate_eq (arch : String) (wasmRequired : Bool) (krate : Crate)
    (sink : List Diagnostic) :
    check_crate arch wasmRequired krate sink =
      sink ++ (krate.nodes.map (checkNode_diags arch wasmRequired)).join := by
  unfold check_crate
  exact foldl_emits _ (checkNode_diags arch wasmRequired)
    (checkNode_eq arch wasmRequired) krate.nodes sink

theorem is_c_like_enum_eq_spec (item : Item) :
    is_c_like_enum item = specPlainEnum item := by
  unfold is_c_like_enum specPlainEnum
  cases item.node with
  | ItemEnum def_ =>
    have : (fun v : Variant =>
        match v.data with
        | VariantData.Unit => true
        | _ => false) = (fun v : Variant => v.data == VariantData.Unit) := by
      funext v
      cases v.data <;> rfl
    rw [this]
  | _ => rfl

/-- The loop flags are exactly the occurrence counts / presence flags of the
named hints: the flag updates happen on every recognized hint, before and
independently of the per-hint placement test. -/
theorem reprFlags_foldl (hints : List MetaItem) : ∀ (fl : ReprFlags),
    hints.foldl (fun fl h => reprHintFlags fl h.name) fl =
      ⟨fl.int_reprs
        + (hints.filterMap MetaItem.name).countP (fun n => intReprNames.contains n),
       fl.is_c || (hints.filterMap MetaItem.name).contains "C",
       fl.is_simd || (hints.filterMap MetaItem.name).contains "simd",
       fl.is_transparent || (hints.filterMap MetaItem.name).contains "transparent"⟩ := by
  induction hints with
  | nil => intro fl; cases fl; simp
  | cons h t ih =>
    intro fl
    rw [List.foldl_cons, ih]
    cases hn : h.name with
    | none => simp [reprHintFlags, List.filterMap_cons, hn]
    | some n =>
      simp only [List.filterMap_cons, hn]
      unfold reprHintFlags
      by_cases hC : n = "C"
      · subst hC
        simp [List.countP_cons, List.contains_cons, intReprNames]
      · by_cases hS : n = "simd"
        · subst hS
          simp [List.countP_cons, List.contains_cons, intReprNames]
        · by_cases hT : n = "transparent"
          · subst hT
            simp [List.countP_cons, List.contains_cons, intReprNames]
          · have e1 : (("C" : String) == n) = false :=
              beq_eq_false_iff_ne.mpr (Ne.symm hC)
            have e2 : (("simd" : String) == n) = false :=
              beq_eq_false_iff_ne.mpr (Ne.symm hS)
            have e3 : (("transparent" : String) == n) = false :=
              beq_eq_false_iff_ne.mpr (Ne.symm hT)
            have d1 : decide ("C" = n) = false := decide_eq_false (Ne.symm hC)
            have d2 : decide ("simd" = n) = false := decide_eq_false (Ne.symm hS)
            have d3 : decide ("transparent" = n) = false :=
              decide_eq_false (Ne.symm hT)
            by_cases hI : n ∈ intReprNames
            · simp [hC, hS, hT, hI, e1, e2, e3, d1, d2, d3, List.countP_cons,
                List.contains_cons]
              try omega
            · simp [hC, hS, hT, hI, e1, e2, e3, d1, d2, d3, List.countP_cons,
                List.contains_cons]

theorem reprFlagsOf_spec (item : Item) :
    reprFlagsOf (reprHints item) =
      ⟨specIntWidthCount item,
       (hintNames item).contains "C",
       (hintNames item).contains "simd",
       (hintNames item).contains "transparent"⟩ := by
  unfold reprFlagsOf specIntWidthCount hintNames
  rw [reprFlags_foldl]
  simp

/-- Every placement diagnostic of the repr hint loop carries code `E0517`. -/
theorem reprPlacementDiags_code (target : Target) (itemSpan : Span)
    (hint : MetaItem) (d : Diagnostic) (h : d ∈ reprPlacementDiags target itemSpan hint) :
    d.code = some "E0517" := by
  cases hn : hint.name with
  | none => simp [reprPlacementDiags, hn] at h
  | some name =>
    cases hp : reprHintPlacement target name with
    | none => simp [reprPlacementDiags, hn, hp] at h
    | some pr =>
      obtain ⟨article, allowed⟩ := pr
      simp [reprPlacementDiags, hn, hp] at h
      subst h
      rfl

/-- Filtering away a predicate that rejects every produced element empties
the concatenation. -/
theorem filter_join_map_eq_nil {α : Type} (q : Diagnostic → Bool)
    (g : α → List Diagnostic) (l : List α)
    (h : ∀ a, ∀ d ∈ g a, q d = false) :
    ((l.map g).join).filter q = [] := by
  induction l with
  | nil => simp
  | cons a t ih =>
    simp only [List.map_cons, List.join_cons, List.filter_append, ih]
    rw [List.filter_eq_nil_iff.mpr (fun d hd => by simp [h a d hd]), List.nil_append]

/-- Filtering `check_repr`'s output for code `E0566` leaves exactly the
conflict warning, present iff its own condition holds. -/
theorem check_repr_filter_E0566 (item : Item) (target : Target) :
    (check_repr item target []).filter (fun d => d.code == some "E0566") =
      (if (reprFlagsOf (reprHints item)).int_reprs > 1
          ∨ ((reprFlagsOf (reprHints item)).is_simd = true
              ∧ (reprFlagsOf (reprHints item)).is_c = true)
          ∨ ((reprFlagsOf (reprHints item)).int_reprs = 1
              ∧ (reprFlagsOf (reprHints item)).is_c = true
              ∧ is_c_like_enum item = true) then
        [⟨Severity.Warning, some "E0566", (reprHints item).map (fun h => h.span),
          "conflicting representation hints", []⟩]
      else []) := by
  rw [check_repr_eq]
  unfold check_repr_diags
  rw [List.nil_append, List.filter_append, List.filter_append]
  rw [filter_join_map_eq_nil _ _ _
    (fun a d hd => by rw [reprPlacementDiags_code target item.span a d hd]; rfl)]
  rw [List.nil_append]
  have h2 : (if (reprFlagsOf (reprHints item)).is_transparent = true
        ∧ (reprHints item).length > 1 then
      [(⟨Severity.Error, some "E0692", (reprHints item).map (fun h => h.span),
        "transparent struct cannot have other repr hints", []⟩ : Diagnostic)]
    else []).filter (fun d => d.code == some "E0566") = [] := by
    split <;> simp
  rw [h2, List.nil_append]
  split <;> simp

/-- Filtering `check_repr`'s output for code `E0692` leaves exactly the
transparent-conflict error, present iff its own condition holds. -/
theorem check_repr_filter_E0692 (item : Item) (target : Target) :
    (check_repr item target []).filter (fun d => d.code == some "E0692") =
      (if (reprFlagsOf (reprHints item)).is_transparent = true
          ∧ (reprHints item).length > 1 then
        [⟨Severity.Error, some "E0692", (reprHints item).map (fun h => h.span),
          "transparent struct cannot have other repr hints", []⟩]
      else []) := by
  rw [check_repr_eq]
  unfold check_repr_diags
  rw [List.nil_append, List.filter_append, List.filter_append]
  rw [filter_join_map_eq_nil _ _ _
    (fun a d hd => by rw [reprPlacementDiags_code target item.span a d hd]; rfl)]
  rw [List.nil_append]
  have h3 : (if (reprFlagsOf (reprHints item)).int_reprs > 1
        ∨ ((reprFlagsOf (reprHints item)).is_simd = true
            ∧ (reprFlagsOf (reprHints item)).is_c = true)
        ∨ ((reprFlagsOf (reprHints item)).int_reprs = 1
            ∧ (reprFlagsOf (reprHints item)).is_c = true
            ∧ is_c_like_enum item = true) then
      [(⟨Severity.Warning, some "E0566", (reprHints item).map (fun h => h.span),
        "conflicting representation hints", []⟩ : Diagnostic)]
    else []).filter (fun d => d.code == some "E0692") = [] := by
    split <;> simp
  rw [h3, List.append_nil]
  split <;> simp

/-- Claim C1, counterexample: on a declaration whose repr hints include
`transparent` with total hint count above one (`repr(transparent, u8, u16)`
on a struct), the pass emits the transparent-conflict error `E0692` AND the
conflicting-hints warning `E0566` in the same run — the transparent error
does not suppress the warning check, so "at most one of the two aggregate
diagnostics fires" is false on the code. -/
theorem transparent_suppression_cex :
    (reprFlagsOf (reprHints transparentConflictItem)).is_transparent = true
    ∧ (reprHints transparentConflictItem).length > 1
    ∧ (check_repr transparentConflictItem Target.Struct []).countP
        (fun d => d.code == some "E0692") = 1
    ∧ (check_repr transparentConflictItem Target.Struct []).countP
        (fun d => d.code == some "E0566") = 1 := by
  decide

/-- Claim C1, amended: whenever the repr hints include `transparent` and the
total hint count exceeds one, the pass emits the error "transparent struct
cannot have other repr hints" (code `E0692`), exactly once, spanning all
hint occurrences; however this error does not suppress the conflicting-hints
warning check: the `E0566` warning is still emitted exactly when its own
condition holds, so both aggregate diagnostics fire together when both
conditions hold. -/
theorem transparent_conflict_amended (item : Item) (target : Target) :
    ((check_repr item target []).filter (fun d => d.code == some "E0692") =
      (if (hintNames item).contains "transparent" = true
          ∧ (reprHints item).length > 1 then
        [⟨Severity.Error, some "E0692", (reprHints item).map (fun h => h.span),
          "transparent struct cannot have other repr hints", []⟩]
      else []))
    ∧ ((check_repr item target []).filter (fun d => d.code == some "E0566") =
      (if specIntWidthCount item > 1
          ∨ ((hintNames item).contains "simd" = true
              ∧ (hintNames item).contains "C" = true)
          ∨ (specIntWidthCount item = 1
              ∧ (hintNames item).contains "C" = true
              ∧ specPlainEnum item = true) then
        [⟨Severity.Warning, some "E0566", (reprHints item).map (fun h => h.span),
          "conflicting representation hints", []⟩]
      else [])) := by
  constructor
  · rw [check_repr_filter_E0692 item target, reprFlagsOf_spec]
  · rw [check_repr_filter_E0566 item target, reprFlagsOf_spec,
      is_c_like_enum_eq_spec]

/-- Claim C2: the warning "conflicting representation hints" (code `E0566`)
is emitted, exactly once and spanning all repr hint occurrences, iff the
count of integer-width hints (once per occurrence, duplicates included)
exceeds one, or both a `simd` and a `C` hint are present, or exactly one
integer-width hint and a `C` hint are present on a plain enumeration (an
enum whose every variant carries no associated data — `is_c_like_enum`
agrees with that data-shape predicate, and non-enum declarations never
qualify); otherwise no such warning is emitted. -/
theorem conflicting_hints_warning_iff :
    (∀ item : Item, is_c_like_enum item = specPlainEnum item)
    ∧ ∀ (item : Item) (target : Target),
      (check_repr item target []).filter (fun d => d.code == some "E0566") =
        (if specIntWidthCount item > 1
            ∨ ((hintNames item).contains "simd" = true
                ∧ (hintNames item).contains "C" = true)
            ∨ (specIntWidthCount item = 1
                ∧ (hintNames item).contains "C" = true
                ∧ specPlainEnum item = true) then
          [⟨Severity.Warning, some "E0566",
            (reprHints item).map (fun h => h.span),
            "conflicting representation hints", []⟩]
        else []) := by
  constructor
  · exact is_c_like_enum_eq_spec
  · intro item target
    rw [check_repr_filter_E0566 item target, reprFlagsOf_spec,
      is_c_like_enum_eq_spec]

/-- The source's per-hint placement behavior coincides pointwise with the
claim's table. -/
theorem reprPlacementDiags_eq_spec (target : Target) (itemSpan : Span)
    (hint : MetaItem) :
    reprPlacementDiags target itemSpan hint =
      specPlacementDiags target itemSpan hint := by
  cases hn : hint.name with
  | none => simp [reprPlacementDiags, specPlacementDiags, hn]
  | some name =>
    simp only [reprPlacementDiags, specPlacementDiags, hn]
    by_cases h1 : name = "C"
    · subst h1; cases target <;> rfl
    · by_cases h2 : name = "packed"
      · subst h2; cases target <;> simp [reprHintPlacement, specReprRule]
      · by_cases h3 : name = "simd"
        · subst h3; cases target <;> simp [reprHintPlacement, specReprRule]
        · by_cases h4 : name = "align"
          · subst h4; cases target <;> simp [reprHintPlacement, specReprRule]
          · by_cases h5 : name = "transparent"
            · subst h5; cases target <;> simp [reprHintPlacement, specReprRule]
            · by_cases h6 : name ∈ intReprNames
              · cases target <;>
                  simp [reprHintPlacement, specReprRule, h1, h2, h3, h4, h5, h6]
              · simp [reprHintPlacement, specReprRule, h1, h2, h3, h4, h5, h6]

/-- Claim C3: for every declaration and every recognized repr hint on it, a
placement error "attribute should be applied to \<targets\>" (code `E0517`)
with label "not \<article\> \<targets\>", anchored at the hint's span and
labeling the declaration's span, is emitted iff the declaration's target
category lies outside that hint's required set (C: struct/union/enum;
packed: struct/union; simd: struct; align: struct/union; transparent:
struct; every integer-width hint: enum); a hint inside its required set
produces no placement diagnostic. -/
theorem repr_placement_errors_iff (item : Item) (target : Target) :
    (check_repr item target []).filter (fun d => d.code == some "E0517") =
      ((reprHints item).map (specPlacementDiags target item.span)).join := by
  rw [check_repr_eq]
  unfold check_repr_diags
  rw [List.nil_append, List.filter_append, List.filter_append]
  have hplace :
      (((reprHints item).map (reprPlacementDiags target item.span)).join).filter
        (fun d => d.code == some "E0517")
      = ((reprHints item).map (reprPlacementDiags target item.span)).join := by
    rw [List.filter_eq_self]
    intro d hd
    rw [List.mem_join] at hd
    obtain ⟨l, hl, hdl⟩ := hd
    rw [List.mem_map] at hl
    obtain ⟨a, _, rfl⟩ := hl
    rw [reprPlacementDiags_code target item.span a d hdl]
    rfl
  rw [hplace]
  have h2 : (if (reprFlagsOf (reprHints item)).is_transparent = true
        ∧ (reprHints item).length > 1 then
      [(⟨Severity.Error, some "E0692", (reprHints item).map (fun h => h.span),
        "transparent struct cannot have other repr hints", []⟩ : Diagnostic)]
    else []).filter (fun d => d.code == some "E0517") = [] := by
    split <;> simp
  have h3 : (if (reprFlagsOf (reprHints item)).int_reprs > 1
        ∨ ((reprFlagsOf (reprHints item)).is_simd = true
            ∧ (reprFlagsOf (reprHints item)).is_c = true)
        ∨ ((reprFlagsOf (reprHints item)).int_reprs = 1
            ∧ (reprFlagsOf (reprHints item)).is_c = true
            ∧ is_c_like_enum item = true) then
      [(⟨Severity.Warning, some "E0566", (reprHints item).map (fun h => h.span),
        "conflicting representation hints", []⟩ : Diagnostic)]
    else []).filter (fun d => d.code == some "E0517") = [] := by
    split <;> simp
  rw [h2, h3, List.append_nil, List.append_nil]
  congr 1
  exact List.map_congr_left (fun a _ => reprPlacementDiags_eq_spec target item.span a)

/-- Claim C10: the aggregate conflict analysis sees every recognized hint
regardless of placement validity — the flag updates happen before the
per-hint placement test.  First conjunct: the aggregate diagnostics (`E0692`
and `E0566`) of `check_repr` are entirely independent of the declaration's
target category (only placement errors depend on it).  Second conjunct:
`repr(transparent, C)` on an enum yields the per-hint placement error for the
transparent hint (the only hint misplaced on an enum) and additionally the
transparent-conflict error spanning both hints, whose condition counted both
hints even though `transparent` itself failed its placement check. -/
theorem aggregate_flags_before_placement :
    (∀ (item : Item) (t1 t2 : Target),
      (check_repr item t1 []).filter
          (fun d => d.code == some "E0692" || d.code == some "E0566")
        = (check_repr item t2 []).filter
          (fun d => d.code == some "E0692" || d.code == some "E0566"))
    ∧ check_repr transparentCEnumItem Target.Enum []
        = [⟨Severity.Error, some "E0517", [11],
            "attribute should be applied to struct", [⟨10, "not a struct"⟩]⟩,
           ⟨Severity.Error, some "E0692", [11, 12],
            "transparent struct cannot have other repr hints", []⟩] := by
  constructor
  · intro item t1 t2
    rw [check_repr_eq, check_repr_eq]
    unfold check_repr_diags
    simp only [List.nil_append, List.filter_append]
    rw [filter_join_map_eq_nil _ _ _
      (fun a d hd => by rw [reprPlacementDiags_code t1 item.span a d hd]; rfl)]
    rw [filter_join_map_eq_nil _ _ _
      (fun a d hd => by rw [reprPlacementDiags_code t2 item.span a d hd]; rfl)]
  · decide

/-- Claim C5: `non_exhaustive` on a target that is neither struct nor enum
yields exactly one `E0701` error ("attribute can only be applied to a struct
or enum", label "not a struct or enum") and the shape check is skipped; on a
struct or enum carrying a nested list or a literal value it yields exactly
one `E0702` error ("attribute should be empty", label "not empty"); on a
valid target with a bare annotation, nothing. -/
theorem non_exhaustive_checks (attr : Attribute) (item : Item) (target : Target) :
    check_non_exhaustive attr item target [] =
      if target = Target.Struct ∨ target = Target.Enum then
        (if attr.meta_item_list.isSome ∨ attr.value_str.isSome then
          [⟨Severity.Error, some "E0702", [attr.span],
            "attribute should be empty", [⟨item.span, "not empty"⟩]⟩]
        else [])
      else
        [⟨Severity.Error, some "E0701", [attr.span],
          "attribute can only be applied to a struct or enum",
          [⟨item.span, "not a struct or enum"⟩]⟩] := by
  rw [check_non_exhaustive_eq, List.nil_append]
  unfold check_non_exhaustive_diags
  cases target <;> simp

/-- Claim C6: for a `wasm_import_module` annotation, the shape check (a
literal string value must be present) and the placement check (the target
must be a foreign module) are independent: each contributes its error
exactly when its own condition is violated, and both errors appear when
both are violated. -/
theorem wasm_import_module_checks (item : Item) (target : Target)
    (attr : Attribute) (h : attr.name = "wasm_import_module") :
    attrStep item target [] attr =
      (if attr.value_str = none then
        [⟨Severity.Error, none, [attr.span],
          "must be of the form #[wasm_import_module = \"...\"]", []⟩]
      else [])
      ++ (if target ≠ Target.ForeignMod then
        [⟨Severity.Error, none, [attr.span],
          "must only be attached to foreign modules", []⟩]
      else []) := by
  have h1 : ¬ attr.name = "inline" := by rw [h]; decide
  have h2 : ¬ attr.name = "non_exhaustive" := by rw [h]; decide
  rw [attrStep_eq, List.nil_append]
  unfold attrStep_diags
  rw [if_neg h1, if_neg h2, if_pos h]

theorem wasm_import_module_checks_witness :
    attrStep wasmWitnessItem Target.Struct [] wasmAttrNoValue =
      [⟨Severity.Error, none, [5],
        "must be of the form #[wasm_import_module = \"...\"]", []⟩,
       ⟨Severity.Error, none, [5],
        "must only be attached to foreign modules", []⟩] :=
  (wasm_import_module_checks wasmWitnessItem Target.Struct wasmAttrNoValue
    rfl).trans (by decide)

/-- Claim C8: `Target::from_item` is a total, deterministic function of the
declaration's syntactic kind alone: it factors through the kind
discriminant, realizes exactly the claimed mapping (function to Fn, struct
to Struct, union to Union, enum to Enum, constant to Const, foreign module
to ForeignMod, static to Static, everything else to Other), and any two
declarations of the same syntactic kind — regardless of attributes, spans
or enum payloads — classify identically.  Totality and absence of failure
are inherent: it is a total function into `Target`.  -/
theorem target_classifier_spec :
    (∀ item : Item, Target.from_item item = targetOfKind item.node.kind)
    ∧ (∀ i1 i2 : Item, i1.node.kind = i2.node.kind →
        Target.from_item i1 = Target.from_item i2)
    ∧ (targetOfKind ItemKind.KFn = Target.Fn
       ∧ targetOfKind ItemKind.KStruct = Target.Struct
       ∧ targetOfKind ItemKind.KUnion = Target.Union
       ∧ targetOfKind ItemKind.KEnum = Target.Enum
       ∧ targetOfKind ItemKind.KConst = Target.Const
       ∧ targetOfKind ItemKind.KForeignMod = Target.ForeignMod
       ∧ targetOfKind ItemKind.KStatic = Target.Static
       ∧ targetOfKind ItemKind.KOther = Target.Other) := by
  have key : ∀ item : Item, Target.from_item item = targetOfKind item.node.kind := by
    intro item
    obtain ⟨node, attrs, span⟩ := item
    cases node <;> rfl
  refine ⟨key, ?_, by decide⟩
  intro i1 i2 h
  rw [key i1, key i2, h]

theorem target_classifier_spec_witness :
    Target.from_item enumItemA = Target.from_item enumItemB :=
  target_classifier_spec.2.1 enumItemA enumItemB rfl

/-- Claim C9: the pass appends to the sink a list of diagnostic records that
is a function of the program tree (and configuration) alone, independent of
any diagnostics already in the sink: `check_crate` over any sink equals the
sink followed by the run over a fresh empty sink.  Hence two runs over the
same unchanged tree, each starting from a fresh empty sink, append identical
records in identical order, and the sink is strictly append-only. -/
theorem check_crate_deterministic (arch : String) (wasmRequired : Bool)
    (krate : Crate) (sink : List Diagnostic) :
    check_crate arch wasmRequired krate sink =
      sink ++ check_crate arch wasmRequired krate [] := by
  rw [check_crate_eq, check_crate_eq, List.nil_append]

/-- Filtering distributes over a concatenation of produced lists. -/
theorem filter_join_map {α : Type} (q : Diagnostic → Bool)
    (g : α → List Diagnostic) (l : List α) :
    ((l.map g).join).filter q = (l.map (fun a => (g a).filter q)).join := by
  induction l with
  | nil => simp
  | cons a t ih => simp [List.filter_append, ih]

/-- Concatenating guarded singletons is mapping over the filtered list. -/
theorem guard_join {α : Type} (p : α → Prop) [DecidablePred p] (q : α → Bool)
    (hpq : ∀ a, p a ↔ q a = true) (f : α → Diagnostic) (l : List α) :
    ((l.map (fun a => if p a then [f a] else [])).join) = (l.filter q).map f := by
  induction l with
  | nil => rfl
  | cons a t ih =>
    by_cases h : p a
    · have hb : q a = true := (hpq a).mp h
      simp [h, hb, List.filter_cons, ih]
    · have hb : ¬ q a = true := fun hq => h ((hpq a).mpr hq)
      simp [h, hb, List.filter_cons, ih]

/-- A guarded singleton whose element the predicate rejects filters to
nothing. -/
theorem filter_ite_singleton (q : Diagnostic → Bool) (c : Prop) [Decidable c]
    (d : Diagnostic) (hd : q d = false) :
    (if c then [d] else []).filter q = [] := by
  split <;> simp [hd]

/-- Inside one attribute's diagnostics, only the `inline` branch produces
code `E0518`. -/
theorem attrStep_diags_filter_E0518 (item : Item) (target : Target)
    (a : Attribute) :
    (attrStep_diags item target a).filter (fun d => d.code == some "E0518") =
      if a.name = "inline" then check_inline_diags a item.span target
      else [] := by
  unfold attrStep_diags
  by_cases h1 : a.name = "inline"
  · rw [if_pos h1, if_pos h1]
    unfold check_inline_diags
    split <;> rfl
  · rw [if_neg h1, if_neg h1]
    by_cases h2 : a.name = "non_exhaustive"
    · rw [if_pos h2]
      unfold check_non_exhaustive_diags
      cases target <;> first
        | rfl
        | exact filter_ite_singleton _ _ _ rfl
    · rw [if_neg h2]
      by_cases h3 : a.name = "wasm_import_module"
      · rw [if_pos h3, List.filter_append]
        have p1 : (if a.value_str = none then
            [(⟨Severity.Error, none, [a.span],
              "must be of the form #[wasm_import_module = \"...\"]", []⟩ : Diagnostic)]
          else []).filter (fun d => d.code == some "E0518") = [] := by
          split <;> rfl
        have p2 : (if target ≠ Target.ForeignMod then
            [(⟨Severity.Error, none, [a.span],
              "must only be attached to foreign modules", []⟩ : Diagnostic)]
          else []).filter (fun d => d.code == some "E0518") = [] := by
          split <;> rfl
        rw [p1, p2]
        rfl
      · rw [if_neg h3]
        by_cases h4 : a.name = "wasm_custom_section"
        · rw [if_pos h4]
          split <;> rfl
        · rw [if_neg h4]
          rfl

/-- `check_repr` produces no diagnostic with code `E0518`. -/
theorem check_repr_diags_filter_E0518 (item : Item) (target : Target) :
    (check_repr_diags item target).filter (fun d => d.code == some "E0518") = [] := by
  unfold check_repr_diags
  rw [List.filter_append, List.filter_append]
  rw [filter_join_map_eq_nil _ _ _
    (fun a d hd => by rw [reprPlacementDiags_code target item.span a d hd]; rfl)]
  have h2 : (if (reprFlagsOf (reprHints item)).is_transparent = true
        ∧ (reprHints item).length > 1 then
      [(⟨Severity.Error, some "E0692", (reprHints item).map (fun h => h.span),
        "transparent struct cannot have other repr hints", []⟩ : Diagnostic)]
    else []).filter (fun d => d.code == some "E0518") = [] := by
    split <;> rfl
  have h3 : (if (reprFlagsOf (reprHints item)).int_reprs > 1
        ∨ ((reprFlagsOf (reprHints item)).is_simd = true
            ∧ (reprFlagsOf (reprHints item)).is_c = true)
        ∨ ((reprFlagsOf (reprHints item)).int_reprs = 1
            ∧ (reprFlagsOf (reprHints item)).is_c = true
            ∧ is_c_like_enum item = true) then
      [(⟨Severity.Warning, some "E0566", (reprHints item).map (fun h => h.span),
        "conflicting representation hints", []⟩ : Diagnostic)]
    else []).filter (fun d => d.code == some "E0518") = [] := by
    split <;> rfl
  rw [h2, h3]
  rfl

/-- Guarded `check_inline` outputs over an attribute list collapse to the
inline-named attributes when the target is invalid, and to nothing when the
target is a function or closure. -/
theorem inline_guard_join (attrs : List Attribute) (sp : Span) (target : Target) :
    ((attrs.map (fun a =>
        if a.name = "inline" then check_inline_diags a sp target else [])).join)
      = if target = Target.Fn ∨ target = Target.Closure then []
        else (attrs.filter (fun a => a.name == "inline")).map
          (fun a => inlineErr a sp) := by
  by_cases hT : target = Target.Fn ∨ target = Target.Closure
  · rw [if_pos hT]
    have hempty : ∀ a : Attribute,
        (if a.name = "inline" then check_inline_diags a sp target else []) = [] := by
      intro a
      split
      · unfold check_inline_diags
        rw [if_neg (fun hc => Or.elim hT hc.1 hc.2)]
      · rfl
    simp [hempty]
  · rw [if_neg hT]
    push_neg at hT
    have hsingle : ∀ a : Attribute,
        (if a.name = "inline" then check_inline_diags a sp target else [])
          = (if a.name = "inline" then [inlineErr a sp] else []) := by
      intro a
      split
      · unfold check_inline_diags inlineErr
        rw [if_pos hT]
      · rfl
    rw [List.map_congr_left (fun a _ => hsingle a)]
    exact guard_join (fun a => a.name = "inline") (fun a => a.name == "inline")
      (fun a => by simp) (fun a => inlineErr a sp) attrs

/-- The `target_feature` error carries no stable code. -/
theorem target_feature_diags_filter_E0518 (item : Item) (target : Target) :
    (target_feature_diags item target).filter
      (fun d => d.code == some "E0518") = [] := by
  unfold target_feature_diags
  split
  · rfl
  · cases hf : item.attrs.find? (fun a => a.name == "target_feature") <;> rfl

/-- The dormant foreign-module warning carries no stable code. -/
theorem wasm_warning_diags_filter_E0518 (item : Item) (target : Target)
    (arch : String) (wasmRequired : Bool) :
    (wasm_warning_diags item target arch wasmRequired).filter
      (fun d => d.code == some "E0518") = [] := by
  unfold wasm_warning_diags
  exact filter_ite_singleton _ _ _ rfl

/-- The `used` error carries no stable code. -/
theorem check_used_diags_filter_E0518 (target : Target) (a : Attribute) :
    (check_used_diags target a).filter (fun d => d.code == some "E0518") = [] := by
  unfold check_used_diags
  exact filter_ite_singleton _ _ _ rfl

/-- One statement attribute's `E0518` diagnostics: exactly the inline error
(statement targets always fail the inline placement check). -/
theorem stmtAttr_diags_filter_E0518 (sp : Span) (a : Attribute) :
    (stmtAttr_diags sp a).filter (fun d => d.code == some "E0518") =
      if a.name = "inline" then [inlineErr a sp] else [] := by
  unfold stmtAttr_diags
  rw [List.filter_append]
  have p2 : (if a.name = "repr" then
      [(⟨Severity.Error, some "E0517", [a.span],
        "attribute should not be applied to a statement",
        [⟨sp, "not a struct, enum or union"⟩]⟩ : Diagnostic)]
    else []).filter (fun d => d.code == some "E0518") = [] :=
    filter_ite_singleton _ _ _ rfl
  rw [p2, List.append_nil]
  split
  · unfold check_inline_diags
    rw [if_pos (by decide : Target.Statement ≠ Target.Fn
        ∧ Target.Statement ≠ Target.Closure)]
    rfl
  · rfl

/-- One expression attribute's `E0518` diagnostics: the inline error iff the
expression target is not a closure. -/
theorem exprAttr_diags_filter_E0518 (sp : Span) (t : Target) (a : Attribute) :
    (exprAttr_diags sp t a).filter (fun d => d.code == some "E0518") =
      (if a.name = "inline" then check_inline_diags a sp t else []) := by
  unfold exprAttr_diags
  rw [List.filter_append]
  have p2 : (if a.name = "repr" then
      [(⟨Severity.Error, some "E0517", [a.span],
        "attribute should not be applied to an expression",
        [⟨sp, "not defining a struct, enum or union"⟩]⟩ : Diagnostic)]
    else []).filter (fun d => d.code == some "E0518") = [] :=
    filter_ite_singleton _ _ _ rfl
  rw [p2, List.append_nil]
  split
  · unfold check_inline_diags
    split <;> rfl
  · rfl

/-- Claim C4: the error "attribute should be applied to function or closure"
(code `E0518`, label "not a function or closure") is emitted for an `inline`
annotation iff the node's target category is neither `Fn` nor `Closure`.
First conjunct: `check_inline` itself.  Second: at declaration level,
`check_attributes` emits one such error per inline-named attribute iff the
declaration's target is not a function (declarations are never closures),
and none otherwise.  Third: a declaration statement always gets the error
for each inline-named attribute (target `Statement` never passes), and
non-declaration statements are not checked.  Fourth: an expression gets the
error iff it is not a closure. -/
theorem inline_placement_iff :
    (∀ (attr : Attribute) (sp : Span) (target : Target),
      check_inline attr sp target [] =
        if target = Target.Fn ∨ target = Target.Closure then []
        else [inlineErr attr sp])
    ∧ (∀ (item : Item) (target : Target) (arch : String) (wasmRequired : Bool),
      (check_attributes item target arch wasmRequired []).filter
          (fun d => d.code == some "E0518") =
        if target = Target.Fn ∨ target = Target.Closure then []
        else (item.attrs.filter (fun a => a.name == "inline")).map
          (fun a => inlineErr a item.span))
    ∧ (∀ stmt : Stmt,
      (check_stmt_attributes stmt []).filter (fun d => d.code == some "E0518") =
        (stmt.node.attrs.filter (fun a => a.name == "inline")).map
          (fun a => inlineErr a stmt.span))
    ∧ (∀ expr : Expr,
      (check_expr_attributes expr []).filter (fun d => d.code == some "E0518") =
        if expr.node = ExprKind.ExprClosure then []
        else (expr.attrs.filter (fun a => a.name == "inline")).map
          (fun a => inlineErr a expr.span)) := by
  refine ⟨?_, ?_, ?_, ?_⟩
  · intro attr sp target
    rw [check_inline_eq, List.nil_append]
    unfold check_inline_diags inlineErr
    by_cases h : target = Target.Fn ∨ target = Target.Closure
    · rw [if_pos h, if_neg (fun hc => Or.elim h hc.1 hc.2)]
    · rw [if_neg h]
      push_neg at h
      rw [if_pos h]
  · intro item target arch wasmRequired
    rw [check_attributes_eq, List.nil_append]
    unfold check_attributes_diags
    rw [List.filter_append, List.filter_append, List.filter_append,
      List.filter_append]
    rw [target_feature_diags_filter_E0518, wasm_warning_diags_filter_E0518,
      check_repr_diags_filter_E0518]
    rw [filter_join_map_eq_nil _ (check_used_diags target) item.attrs
      (fun a d hd => by
        have h := check_used_diags_filter_E0518 target a
        rw [List.filter_eq_nil_iff] at h
        simpa using h d hd)]
    rw [filter_join_map]
    rw [List.map_congr_left
      (fun a _ => attrStep_diags_filter_E0518 item target a)]
    rw [inline_guard_join item.attrs item.span target]
    simp
  · intro stmt
    rw [check_stmt_attributes_eq, List.nil_append, filter_join_map]
    rw [List.map_congr_left
      (fun a _ => stmtAttr_diags_filter_E0518 stmt.span a)]
    exact guard_join (fun a => a.name = "inline") (fun a => a.name == "inline")
      (fun a => by simp) (fun a => inlineErr a stmt.span) stmt.node.attrs
  · intro expr
    rw [check_expr_attributes_eq, List.nil_append, filter_join_map]
    rw [List.map_congr_left
      (fun a _ => exprAttr_diags_filter_E0518 expr.span (exprTarget expr) a)]
    cases hn : expr.node with
    | ExprClosure =>
      have hT : exprTarget expr = Target.Closure := by
        unfold exprTarget; rw [hn]
      rw [hT, if_pos rfl]
      have hempty : ∀ a : Attribute,
          (if a.name = "inline" then check_inline_diags a expr.span Target.Closure
           else []) = [] := by
        intro a
        split
        · unfold check_inline_diags
          rw [if_neg (fun hc => hc.2 rfl)]
        · rfl
      simp [hempty]
    | ExprOther =>
      have hT : exprTarget expr = Target.Expression := by
        unfold exprTarget; rw [hn]
      rw [hT, if_neg (by decide)]
      have hsingle : ∀ a : Attribute,
          (if a.name = "inline" then
            check_inline_diags a expr.span Target.Expression
           else []) = (if a.name = "inline" then [inlineErr a expr.span] else []) := by
        intro a
        split
        · unfold check_inline_diags inlineErr
          rw [if_pos (by decide)]
        · rfl
      rw [List.map_congr_left (fun a _ => hsingle a)]
      exact guard_join (fun a => a.name = "inline") (fun a => a.name == "inline")
        (fun a => by simp) (fun a => inlineErr a expr.span) expr.attrs

/-- With the configuration flag off (its default value), the dormant
foreign-module rule contributes nothing. -/
theorem wasm_warning_diags_off (item : Item) (target : Target) (arch : String) :
    wasm_warning_diags item target arch wasm_import_module_required = [] := by
  unfold wasm_warning_diags wasm_import_module_required
  rw [if_neg]
  intro hc
  exact absurd hc.2.2.2 (by decide)

/-- No attribute-loop diagnostic is a code-less warning. -/
theorem attrStep_diags_filter_warn (item : Item) (target : Target)
    (a : Attribute) :
    (attrStep_diags item target a).filter isCodelessWarning = [] := by
  unfold attrStep_diags
  by_cases h1 : a.name = "inline"
  · rw [if_pos h1]
    unfold check_inline_diags
    split <;> rfl
  · rw [if_neg h1]
    by_cases h2 : a.name = "non_exhaustive"
    · rw [if_pos h2]
      unfold check_non_exhaustive_diags
      cases target <;> first
        | rfl
        | exact filter_ite_singleton _ _ _ rfl
    · rw [if_neg h2]
      by_cases h3 : a.name = "wasm_import_module"
      · rw [if_pos h3, List.filter_append]
        have p1 : (if a.value_str = none then
            [(⟨Severity.Error, none, [a.span],
              "must be of the form #[wasm_import_module = \"...\"]", []⟩ : Diagnostic)]
          else []).filter isCodelessWarning = [] :=
          filter_ite_singleton _ _ _ rfl
        have p2 : (if target ≠ Target.ForeignMod then
            [(⟨Severity.Error, none, [a.span],
              "must only be attached to foreign modules", []⟩ : Diagnostic)]
          else []).filter isCodelessWarning = [] :=
          filter_ite_singleton _ _ _ rfl
        rw [p1, p2]
        rfl
      · rw [if_neg h3]
        by_cases h4 : a.name = "wasm_custom_section"
        · rw [if_pos h4]
          exact filter_ite_singleton _ _ _ rfl
        · rw [if_neg h4]
          rfl

/-- No repr diagnostic is a code-less warning (placement errors and the
transparent error are errors; the conflict warning carries code `E0566`). -/
theorem check_repr_diags_filter_warn (item : Item) (target : Target) :
    (check_repr_diags item target).filter isCodelessWarning = [] := by
  unfold check_repr_diags
  rw [List.filter_append, List.filter_append]
  rw [filter_join_map_eq_nil _ _ _
    (fun a d hd => by
      unfold isCodelessWarning
      rw [reprPlacementDiags_code target item.span a d hd]
      simp)]
  have h2 : (if (reprFlagsOf (reprHints item)).is_transparent = true
        ∧ (reprHints item).length > 1 then
      [(⟨Severity.Error, some "E0692", (reprHints item).map (fun h => h.span),
        "transparent struct cannot have other repr hints", []⟩ : Diagnostic)]
    else []).filter isCodelessWarning = [] :=
    filter_ite_singleton _ _ _ rfl
  have h3 : (if (reprFlagsOf (reprHints item)).int_reprs > 1
        ∨ ((reprFlagsOf (reprHints item)).is_simd = true
            ∧ (reprFlagsOf (reprHints item)).is_c = true)
        ∨ ((reprFlagsOf (reprHints item)).int_reprs = 1
            ∧ (reprFlagsOf (reprHints item)).is_c = true
            ∧ is_c_like_enum item = true) then
      [(⟨Severity.Warning, some "E0566", (reprHints item).map (fun h => h.span),
        "conflicting representation hints", []⟩ : Diagnostic)]
    else []).filter isCodelessWarning = [] :=
    filter_ite_singleton _ _ _ rfl
  rw [h2, h3]
  rfl

/-- Claim C7: in the default configuration — the gating flag
`wasm_import_module_required` off, as in the source's literal `false` — the
warning that a foreign-module declaration lacks a `wasm_import_module`
annotation is never emitted, for every declaration, every target category
and every target-architecture descriptor.  First conjunct: the dormant
rule's branch itself contributes nothing.  Second: the pass's output
contains no code-less warning at all (the dormant warning's shape).  Third:
in particular the dormant warning record itself never occurs in the
output. -/
theorem dormant_wasm_rule_inert (item : Item) (target : Target) (arch : String) :
    wasm_warning_diags item target arch wasm_import_module_required = []
    ∧ (check_attributes item target arch wasm_import_module_required []).filter
        isCodelessWarning = []
    ∧ (check_attributes item target arch wasm_import_module_required []).filter
        (fun d => d == ⟨Severity.Warning, none, [item.span],
          "must have a #[wasm_import_module = \"...\"] attribute, this will become a hard error before too long",
          []⟩) = [] := by
  have hmain : (check_attributes item target arch wasm_import_module_required []).filter
      isCodelessWarning = [] := by
    rw [check_attributes_eq, List.nil_append]
    unfold check_attributes_diags
    rw [List.filter_append, List.filter_append, List.filter_append,
      List.filter_append]
    rw [wasm_warning_diags_off item target arch]
    rw [check_repr_diags_filter_warn]
    have htf : (target_feature_diags item target).filter isCodelessWarning = [] := by
      unfold target_feature_diags
      split
      · rfl
      · cases hf : item.attrs.find? (fun a => a.name == "target_feature") <;> rfl
    rw [htf]
    rw [filter_join_map_eq_nil _ (attrStep_diags item target) item.attrs
      (fun a d hd => by
        have h := attrStep_diags_filter_warn item target a
        rw [List.filter_eq_nil_iff] at h
        simpa using h d hd)]
    rw [filter_join_map_eq_nil _ (check_used_diags target) item.attrs
      (fun a d hd => by
        have h : (check_used_diags target a).filter isCodelessWarning = [] := by
          unfold check_used_diags
          exact filter_ite_singleton _ _ _ rfl
        rw [List.filter_eq_nil_iff] at h
        simpa using h d hd)]
    rfl
  refine ⟨wasm_warning_diags_off item target arch, hmain, ?_⟩
  apply List.filter_eq_nil_iff.mpr
  intro d hd hbeq
  have hde : d = ⟨Severity.Warning, none, [item.span],
      "must have a #[wasm_import_module = \"...\"] attribute, this will become a hard error before too long",
      []⟩ := eq_of_beq hbeq
  have hmem := List.filter_eq_nil_iff.mp hmain d hd
  apply hmem
  rw [hde]
  rfl

end CheckAttr
